import Mathlib

/-!
Shallow embedding of the mood-analytics engine of the repository.

Timestamps are modelled as rational numbers of milliseconds since the epoch
(the code stores ISO strings and converts them with new Date(...).getTime()).
Calendar-date bucketing (new Date(ts).toISOString().split the T) is modelled
by the epoch-day number, and getHours by the UTC hour of the timestamp.
Mood states are modelled as the raw strings the code stores, so that
out-of-enum states can be represented faithfully.
-/

/-- MoodData record of src/app/api/analytics/mood-pattern/route.ts
(fields userId and moodText are irrelevant to every computation and omitted). -/
structure MoodData where
  timestamp : ℚ
  moodState : String
  sentiment : Option String
  deriving DecidableEq

/-- Epoch-day number of a timestamp: models
new Date(ts).toISOString().split at the letter T, index 0. -/
def dayOf (ts : ℚ) : ℤ := ⌊ts / 86400000⌋

/-- UTC hour of a timestamp: models new Date(ts).getHours(). -/
def hourOf (ts : ℚ) : ℤ := ⌊ts / 3600000⌋ % 24

/-- JavaScript Math.round for the nonnegative values arising here:
floor of x + 1/2. -/
noncomputable def jsRound (x : ℝ) : ℤ := ⌊x + 1/2⌋

/-- Math.round on rationals (prediction path). -/
def jsRoundQ (x : ℚ) : ℤ := ⌊x + 1/2⌋

/-- The ordinal lookup moodValues = (Happy 3, Stressed 2, Sad 1) combined with
the defaulting idiom (moodValues of the state) OR 2 from route.ts line 219:
an out-of-enum state yields 2, it is NOT dropped. -/
def moodValue (s : String) : ℚ :=
  if s = "Happy" then 3 else if s = "Stressed" then 2 else if s = "Sad" then 1 else 2

/-- Number of entries whose moodState equals s (the moodCounts tally). -/
def countState (es : List MoodData) (s : String) : ℕ :=
  (es.filter (fun m => m.moodState = s)).length

/-- Fraction of entries that are Sad: sadPercentage of generateInsights. -/
def sadFraction (es : List MoodData) : ℚ :=
  (countState es "Sad" : ℚ) / (es.length : ℚ)

/-- Fraction of entries that are Stressed: stressedPercentage of generateInsights. -/
def stressedFraction (es : List MoodData) : ℚ :=
  (countState es "Stressed" : ℚ) / (es.length : ℚ)

/-- First-occurrence deduplication: models the insertion order of the keys of a
JavaScript object built by successive increments. -/
def dedupFirst {α : Type} [DecidableEq α] (l : List α) : List α :=
  l.foldl (fun acc a => if a ∈ acc then acc else acc ++ [a]) []

/-- Left fold that keeps the FIRST pair with maximal count: models the head of a
stable descending sort of the entries of a JavaScript object. -/
def reduceFirstMax {α : Type} (l : List (α × ℕ)) (init : α × ℕ) : α × ℕ :=
  l.foldl (fun best cur => if cur.2 > best.2 then cur else best) init

/-- Left fold that keeps the LAST pair with maximal count: models the reduce of
getMostCommonTimeOfDay, whose comparison keeps max only when strictly greater. -/
def reduceLastMax {α : Type} (l : List (α × ℕ)) (init : α × ℕ) : α × ℕ :=
  l.foldl (fun best cur => if best.2 > cur.2 then best else cur) init

/-- dominantMood of generateInsights: Object.entries(moodCounts) in insertion
order, stable sort by descending count, first element. The empty arm is
unreachable because generateInsights guards the empty list first. -/
def dominantMoodOf (es : List MoodData) : String :=
  match dedupFirst (es.map (fun m => m.moodState)) with
  | [] => "No data"
  | k :: ks =>
      (reduceFirstMax (ks.map (fun k2 => (k2, countState es k2))) (k, countState es k)).1

/-- Insertion sort by ascending timestamp, inserting after equal keys: models
the stable JavaScript sort with comparator a.getTime() minus b.getTime(). -/
def insertByTs (m : MoodData) : List MoodData → List MoodData
  | [] => [m]
  | b :: rest => if m.timestamp < b.timestamp then m :: b :: rest else b :: insertByTs m rest

def sortByTs : List MoodData → List MoodData
  | [] => []
  | a :: rest => insertByTs a (sortByTs rest)

/-- Scan of calculateMaxConsecutiveSad: running count of consecutive Sad
entries and running maximum. -/
def maxConsecScan : List MoodData → ℕ → ℕ → ℕ
  | [], _, maxC => maxC
  | m :: rest, cur, maxC =>
      if m.moodState = "Sad" then maxConsecScan rest (cur + 1) (Nat.max maxC (cur + 1))
      else maxConsecScan rest 0 maxC

/-- calculateMaxConsecutiveSad of route.ts lines 256-274: sort by timestamp,
then take the longest run of consecutive entries whose moodState is Sad. -/
def calculateMaxConsecutiveSad (moodData : List MoodData) : ℕ :=
  maxConsecScan (sortByTs moodData) 0 0

/-- The risk classification chain of generateInsights lines 228-230. -/
inductive RiskLevel
  | low
  | medium
  | high
  deriving DecidableEq

inductive TrendDirection
  | improving
  | declining
  | stable
  deriving DecidableEq

/-- riskLevel of generateInsights: high if consecutiveSad at least 7 or
sadPercentage above 0.7, else medium if consecutiveSad at least 3 or
sadPercentage above 0.4 or stressedPercentage above 0.6, else low. -/
def riskLevelOf (es : List MoodData) : RiskLevel :=
  if 7 ≤ calculateMaxConsecutiveSad es ∨ sadFraction es > 7/10 then .high
  else if 3 ≤ calculateMaxConsecutiveSad es ∨ sadFraction es > 4/10 ∨ stressedFraction es > 6/10 then .medium
  else .low

/-- Ordinal values of the entries, in order: the values array of generateInsights. -/
def valuesOf (es : List MoodData) : List ℚ :=
  es.map (fun m => moodValue m.moodState)

/-- Population mean of the ordinal values. -/
def meanOf (es : List MoodData) : ℚ := (valuesOf es).sum / (es.length : ℚ)

/-- Population variance of the ordinal values. -/
def varianceOf (es : List MoodData) : ℚ :=
  ((valuesOf es).map (fun v => (v - meanOf es) ^ 2)).sum / (es.length : ℚ)

/-- moodStability of generateInsights line 222:
Math.round((1 / (Math.sqrt(variance) + 0.1)) * 100) / 100. -/
noncomputable def moodStabilityOf (es : List MoodData) : ℝ :=
  (jsRound ((1 / (Real.sqrt ((varianceOf es : ℚ) : ℝ) + 1/10)) * 100) : ℝ) / 100

/-- recentData = moodData.slice(-7). -/
def recentDataOf (es : List MoodData) : List MoodData := es.drop (es.length - 7)

/-- olderData = moodData.slice(-14, -7). -/
def olderDataOf (es : List MoodData) : List MoodData :=
  (es.take (es.length - 7)).drop (es.length - 14)

/-- Mean ordinal value of the recent window (denominator is its length;
the window is nonempty whenever moodData is nonempty). -/
def recentAvgOf (es : List MoodData) : ℚ :=
  (valuesOf (recentDataOf es)).sum / ((recentDataOf es).length : ℚ)

/-- Mean ordinal value of the older window, falling back to the recent mean
when the older window is empty (route.ts line 235). -/
def olderAvgOf (es : List MoodData) : ℚ :=
  if 0 < (olderDataOf es).length then
    (valuesOf (olderDataOf es)).sum / ((olderDataOf es).length : ℚ)
  else recentAvgOf es

/-- trendDirection of generateInsights lines 237-239. -/
def trendDirectionOf (es : List MoodData) : TrendDirection :=
  if recentAvgOf es > olderAvgOf es + 3/10 then .improving
  else if recentAvgOf es < olderAvgOf es - 3/10 then .declining
  else .stable

/-- criticalPatterns of generateInsights lines 241-245. -/
noncomputable def criticalPatternsOf (es : List MoodData) : List String :=
  (if 5 ≤ calculateMaxConsecutiveSad es then
      [toString (calculateMaxConsecutiveSad es) ++ " consecutive sad days detected"] else []) ++
  (if stressedFraction es > 1/2 then ["High stress frequency detected"] else []) ++
  (if moodStabilityOf es < 3/10 then ["High mood volatility detected"] else []) ++
  (if es.length < 7 then ["Limited data available for comprehensive analysis"] else [])

/-- The insights record of PatternAnalysis. -/
structure Insights where
  dominantMood : String
  moodStability : ℝ
  riskLevel : RiskLevel
  trendDirection : TrendDirection
  criticalPatterns : List String

/-- generateInsights of route.ts lines 199-254. -/
noncomputable def generateInsights (moodData : List MoodData) : Insights :=
  if moodData = [] then
    ⟨"No data", 0, .low, .stable, ["Insufficient data for analysis"]⟩
  else
    ⟨dominantMoodOf moodData, moodStabilityOf moodData, riskLevelOf moodData,
      trendDirectionOf moodData, criticalPatternsOf moodData⟩

/-- A well-formed entry per the specification: moodState inside the fixed
three-value enum. In this embedding every timestamp is a rational number and
hence parseable, so timestamp well-formedness is vacuous. -/
def isWellFormedEntry (m : MoodData) : Bool :=
  m.moodState = "Happy" ∨ m.moodState = "Sad" ∨ m.moodState = "Stressed"

/-- Normalization used to express the defaulting behaviour: replace every
out-of-enum moodState by the state Stressed, whose ordinal equals the default 2. -/
def normalizeEntry (m : MoodData) : MoodData :=
  if isWellFormedEntry m then m else ⟨m.timestamp, "Stressed", m.sentiment⟩

/-- Catalog of advisories keyed by risk level (route.ts lines 280-288). -/
def riskRecs : RiskLevel → List String
  | .high =>
      ["Consider reaching out to a mental health professional immediately",
       "Contact a crisis helpline if you need immediate support",
       "Inform a trusted friend or family member about how you&apos;re feeling"]
  | .medium =>
      ["Schedule a check-in with a counselor or therapist",
       "Increase self-care activities and stress management techniques",
       "Consider joining a support group or mental health community"]
  | .low => []

/-- Catalog of advisories keyed by trend direction (route.ts lines 290-298). -/
def trendRecs : TrendDirection → List String
  | .declining =>
      ["Focus on identifying and addressing recent stressors",
       "Implement daily mindfulness or meditation practices",
       "Ensure you&apos;re maintaining healthy sleep and eating habits"]
  | .improving =>
      ["Continue with current coping strategies that are working",
       "Document positive activities to repeat them",
       "Consider gradually increasing social activities"]
  | .stable => []

/-- Catalog keyed by dominant mood (route.ts lines 300-304). -/
def moodRecs (dominantMood : String) : List String :=
  if dominantMood = "Stressed" then
    ["Practice stress-reduction techniques like deep breathing",
     "Evaluate and potentially reduce sources of stress in your environment",
     "Consider time management and organizational strategies"]
  else []

/-- Catalog keyed by the stability threshold (route.ts lines 306-310). -/
noncomputable def stabilityRecs (moodStability : ℝ) : List String :=
  if moodStability < 1/2 then
    ["Work on establishing consistent daily routines",
     "Track potential mood triggers in your environment",
     "Consider mood stabilization techniques with a professional"]
  else []

/-- generatePatternRecommendations of route.ts lines 276-313, mirroring the
push-based if chains of the source (the source receives the whole analysis
and reads only its insights). -/
noncomputable def generatePatternRecommendations (insights : Insights) : List String :=
  let recommendations : List String := []
  let recommendations :=
    if insights.riskLevel = .high then
      recommendations ++
        ["Consider reaching out to a mental health professional immediately",
         "Contact a crisis helpline if you need immediate support",
         "Inform a trusted friend or family member about how you&apos;re feeling"]
    else if insights.riskLevel = .medium then
      recommendations ++
        ["Schedule a check-in with a counselor or therapist",
         "Increase self-care activities and stress management techniques",
         "Consider joining a support group or mental health community"]
    else recommendations
  let recommendations :=
    if insights.trendDirection = .declining then
      recommendations ++
        ["Focus on identifying and addressing recent stressors",
         "Implement daily mindfulness or meditation practices",
         "Ensure you&apos;re maintaining healthy sleep and eating habits"]
    else if insights.trendDirection = .improving then
      recommendations ++
        ["Continue with current coping strategies that are working",
         "Document positive activities to repeat them",
         "Consider gradually increasing social activities"]
    else recommendations
  let recommendations :=
    if insights.dominantMood = "Stressed" then
      recommendations ++
        ["Practice stress-reduction techniques like deep breathing",
         "Evaluate and potentially reduce sources of stress in your environment",
         "Consider time management and organizational strategies"]
    else recommendations
  let recommendations :=
    if insights.moodStability < 1/2 then
      recommendations ++
        ["Work on establishing consistent daily routines",
         "Track potential mood triggers in your environment",
         "Consider mood stabilization techniques with a professional"]
    else recommendations
  recommendations.take 6

/-- One (date, mood) aggregate of groupMoodsByDate. -/
structure MoodPattern where
  date : ℤ
  mood : String
  frequency : ℕ
  timeOfDay : String
  sentiment : String
  deriving DecidableEq

/-- Time-of-day bucket of an hour (route.ts lines 172-177). -/
def slotOf (h : ℤ) : String :=
  if 6 ≤ h ∧ h < 12 then "morning"
  else if 12 ≤ h ∧ h < 18 then "afternoon"
  else if 18 ≤ h ∧ h < 22 then "evening"
  else "night"

def slotCount (moods : List MoodData) (s : String) : ℕ :=
  (moods.filter (fun m => slotOf (hourOf m.timestamp) = s)).length

/-- getMostCommonTimeOfDay of route.ts lines 164-185: the reduce keeps the
current maximum only when strictly greater, so the LAST maximal slot wins. -/
def getMostCommonTimeOfDay (moods : List MoodData) : String :=
  (reduceLastMax
    [("afternoon", slotCount moods "afternoon"),
     ("evening", slotCount moods "evening"),
     ("night", slotCount moods "night")]
    ("morning", slotCount moods "morning")).1

/-- getAverageSentiment of route.ts lines 187-197. -/
def getAverageSentiment (moods : List MoodData) : String :=
  if moods = [] then "neutral"
  else
    let sentiments := moods.map (fun m => m.sentiment.getD "neutral")
    let positive := (sentiments.filter (fun s => s = "positive")).length
    let negative := (sentiments.filter (fun s => s = "negative")).length
    if positive > negative then "positive"
    else if negative > positive then "negative"
    else "neutral"

/-- groupMoodsByDate of route.ts lines 139-162: bucket by calendar day in
first-occurrence order, then one MoodPattern per (day, mood) pair. -/
def groupMoodsByDate (moodData : List MoodData) : List MoodPattern :=
  let dates := dedupFirst (moodData.map (fun m => dayOf m.timestamp))
  dates.flatMap (fun d =>
    let moods := moodData.filter (fun m => dayOf m.timestamp = d)
    let moodKeys := dedupFirst (moods.map (fun m => m.moodState))
    moodKeys.map (fun mood =>
      ⟨d, mood, (moods.filter (fun m => m.moodState = mood)).length,
        getMostCommonTimeOfDay (moods.filter (fun m => m.moodState = mood)),
        getAverageSentiment (moods.filter (fun m => m.moodState = mood))⟩))

/-- The deterministic part of the PatternAnalysis value built by
analyzeMoodPatterns together with the POST handler (route.ts lines 59-63 and
120-129): patterns, insights, and the recommendations derived from them.
The generatedAt wall-clock stamp and the echoed request fields userId and
timeRange are not functions of the entry set and are outside this record. -/
structure AnalysisResult where
  patterns : List MoodPattern
  insights : Insights
  recommendations : List String

/-- Entry-set to analysis pipeline: groupMoodsByDate, generateInsights, then
generatePatternRecommendations on the resulting insights. -/
noncomputable def analyzeMoodPatterns (moodData : List MoodData) : AnalysisResult :=
  let insights := generateInsights moodData
  ⟨groupMoodsByDate moodData, insights, generatePatternRecommendations insights⟩

/-- Entries of a given calendar day: the per-day bucket moodsByDate of
calculateConsecutiveSadDays (src/unnamed/part_001 lines 215-222). -/
def dayEntries (entries : List MoodData) (d : ℤ) : List MoodData :=
  entries.filter (fun m => dayOf m.timestamp = d)

/-- A day is sad when strictly more than half of its entries are Sad:
sadMoods.length > dayMoods.length / 2 (part_001 lines 238-239). -/
def isDaySad (entries : List MoodData) (d : ℤ) : Bool :=
  (dayEntries entries d).length < 2 * ((dayEntries entries d).filter (fun m => m.moodState = "Sad")).length

/-- The 30-iteration scan of calculateConsecutiveSadDays (part_001 lines
225-246): fuel counts the remaining iterations, d is the day under scan;
empty days are skipped (continue), sad days increment, and the first
non-sad day with entries stops the whole scan (break). -/
def scanDays (entries : List MoodData) : ℤ → ℕ → ℕ
  | _, 0 => 0
  | d, fuel + 1 =>
      if (dayEntries entries d).length = 0 then scanDays entries (d - 1) fuel
      else if isDaySad entries d then 1 + scanDays entries (d - 1) fuel
      else 0

/-- calculateConsecutiveSadDays of src/unnamed/part_001 lines 186-258, with
the database fetch abstracted into the entries parameter and the midnight
today into an epoch-day parameter. -/
def calculateConsecutiveSadDays (today : ℤ) (entries : List MoodData) : ℕ :=
  if entries = [] then 0 else scanDays entries today 30

/-- analyzeMoodTrend of src/unnamed/part_001 lines 323-335; the history is
passed most-recent-first as fetched there. -/
def trendRecentAvg (moodHistory : List MoodData) : ℚ :=
  ((moodHistory.take 3).map (fun m => moodValue m.moodState)).sum / 3

def trendOlderAvg (moodHistory : List MoodData) : ℚ :=
  ((moodHistory.drop (moodHistory.length - 3)).map (fun m => moodValue m.moodState)).sum / 3

def analyzeMoodTrend (moodHistory : List MoodData) : String :=
  if moodHistory.length < 3 then "insufficient_data"
  else
    if trendRecentAvg moodHistory > trendOlderAvg moodHistory + 3/10 then "improving"
    else if trendRecentAvg moodHistory < trendOlderAvg moodHistory - 3/10 then "declining"
    else "stable"

/-- Result record of calculateStreak (src/app/api/user-stats/route.ts). -/
structure StreakResult where
  current : ℕ
  startDate : Option ℤ
  deriving DecidableEq

/-- Calendar dates (epoch days) of the fetched entry timestamps: the dateMap
of calculateStreak (route.ts lines 130-136); membership in the list models
membership in the map, so duplicates are harmless. -/
def entryDates (tss : List ℚ) : List ℤ := tss.map dayOf

/-- The while loop of calculateStreak (route.ts lines 152-162): walk backward
one day at a time while the date is present, carrying the streak count and
the start date (the last present date). Fuel bounds the iterations; the
callers pass enough fuel that the loop always stops by the else branch. -/
def streakWalk (dates : List ℤ) : ℕ → ℤ → ℤ → ℕ → ℕ × ℤ
  | 0, _, start, streak => (streak, start)
  | fuel + 1, cur, start, streak =>
      if cur ∈ dates then streakWalk dates fuel (cur - 1) cur (streak + 1)
      else (streak, start)

/-- calculateStreak of src/app/api/user-stats/route.ts lines 113-169, with the
fetched timestamps and the midnight today (as an epoch day) as parameters. -/
def calculateStreak (today : ℤ) (tss : List ℚ) : StreakResult :=
  if tss = [] then ⟨0, none⟩
  else
    let dates := entryDates tss
    if today ∈ dates then
      let r := streakWalk dates (dates.length + 1) today today 0
      ⟨r.1, some r.2⟩
    else if today - 1 ∈ dates then
      let r := streakWalk dates (dates.length + 1) (today - 1) (today - 1) 0
      ⟨r.1, some r.2⟩
    else ⟨0, none⟩

/-- MoodEntry of src/app/api/predictions/mood/route.ts: there moodState is
typed with the closed three-value union, so it is an inductive here. -/
inductive PMood
  | Happy
  | Sad
  | Stressed
  deriving DecidableEq

structure PMoodEntry where
  moodState : PMood
  timestamp : ℚ
  deriving DecidableEq

/-- moodToNumber of calculateStatisticalPrediction. -/
def moodToNumber : PMood → ℚ
  | .Happy => 3
  | .Stressed => 2
  | .Sad => 1

/-- Weight of one adjacent mood-state change in calculateStability
(route.ts lines 178-182): 0.5 when the entries are less than 24 hours
apart, 1 otherwise; 0 when the state does not change. -/
def changeWeight (prev cur : PMoodEntry) : ℚ :=
  if cur.moodState ≠ prev.moodState then
    if (cur.timestamp - prev.timestamp) / 3600000 < 24 then 1/2 else 1
  else 0

/-- Total change weight over adjacent pairs. -/
def stabilityChanges : List PMoodEntry → ℚ
  | [] => 0
  | [_] => 0
  | a :: b :: rest => changeWeight a b + stabilityChanges (b :: rest)

/-- calculateStability of src/app/api/predictions/mood/route.ts lines 175-185. -/
def calculateStability (moodData : List PMoodEntry) : ℚ :=
  if moodData.length < 2 then 1/2
  else max 0 (1 - stabilityChanges moodData / ((moodData.length : ℚ) - 1))

/-- tomorrowMood of PredictionResult; the probability distribution object is
flattened into its three fixed keys. -/
structure TomorrowMood where
  predicted : String
  confidence : ℚ
  probHappy : ℚ
  probSad : ℚ
  probStressed : ℚ
  deriving DecidableEq

structure PPatterns where
  weeklyTrend : String
  timeOfDayPattern : String
  moodStability : ℚ
  riskFactors : List String
  deriving DecidableEq

structure PInsights where
  dominantEmotionWeek : String
  moodVolatility : String
  recommendation : String
  deriving DecidableEq

structure PredictionResult where
  tomorrowMood : TomorrowMood
  patterns : PPatterns
  insights : PInsights
  deriving DecidableEq

/-- getFallbackPrediction of route.ts lines 262-281. -/
def getFallbackPrediction : PredictionResult :=
  ⟨⟨"Happy", 1/2, 4/10, 3/10, 3/10⟩,
   ⟨"insufficient_data", "need_more_entries", 1/2, ["Limited historical data"]⟩,
   ⟨"Unknown", "medium", "Continue logging moods regularly."⟩⟩

def pCount (es : List PMoodEntry) (s : PMood) : ℕ :=
  (es.filter (fun m => m.moodState = s)).length

/-- analyzeTimePattern of route.ts lines 159-173; the hourGroups object keys
are in insertion order morning, afternoon, evening, night and the stable
descending sort picks the first maximal group. -/
def analyzeTimePattern (moodHistory : List PMoodEntry) : String :=
  let night := (moodHistory.filter (fun e => hourOf e.timestamp < 6)).length
  let morning := (moodHistory.filter (fun e => 6 ≤ hourOf e.timestamp ∧ hourOf e.timestamp < 12)).length
  let afternoon := (moodHistory.filter (fun e => 12 ≤ hourOf e.timestamp ∧ hourOf e.timestamp < 18)).length
  let evening := (moodHistory.filter (fun e => 18 ≤ hourOf e.timestamp)).length
  let maxGroup := (reduceFirstMax
    [("afternoon", afternoon), ("evening", evening), ("night", night)]
    ("morning", morning)).1
  if maxGroup = "morning" then "morning_low"
  else if maxGroup = "afternoon" then "afternoon_peak"
  else if maxGroup = "evening" then "evening_high"
  else "night_increase"

/-- calculateStatisticalPrediction of route.ts lines 107-157. The forEach
over recentEntries pairs each entry with its weight (every index is below
weights.length because recentEntries has at most 4 elements), and the
moodCounts tally all recentEntries. -/
def calculateStatisticalPrediction (moodHistory : List PMoodEntry) : PredictionResult :=
  if moodHistory.length < 5 then getFallbackPrediction
  else
    let weights : List ℚ := [4/10, 3/10, 2/10, 1/10]
    let r7 := moodHistory.drop (moodHistory.length - 7)
    let recentEntries := r7.drop (r7.length - 4)
    let pairs := recentEntries.zip weights
    let weightedSum : ℚ := (pairs.map (fun p => moodToNumber p.1.moodState * p.2)).sum
    let totalWeight : ℚ := (pairs.map (fun p => p.2)).sum
    let countH := pCount recentEntries .Happy
    let countS := pCount recentEntries .Sad
    let countSt := pCount recentEntries .Stressed
    let avgMood := weightedSum / totalWeight
    let predictedMood := if avgMood ≥ 5/2 then "Happy" else if avgMood ≥ 3/2 then "Stressed" else "Sad"
    let confidence := min (9/10) (max (1/2) (|avgMood - (jsRoundQ avgMood : ℚ)| * 2 + 1/10))
    let total : ℚ := (moodHistory.length : ℚ)
    let stability := calculateStability moodHistory
    let dominantMood := (reduceFirstMax
      [("Sad", countS), ("Stressed", countSt)] ("Happy", countH)).1
    ⟨⟨predictedMood, confidence, (countH : ℚ) / total, (countS : ℚ) / total, (countSt : ℚ) / total⟩,
     ⟨if stability > 7/10 then "stable" else if stability > 4/10 then "variable" else "volatile",
      analyzeTimePattern moodHistory,
      stability,
      if stability < 4/10 then ["High mood volatility"] else []⟩,
     ⟨dominantMood,
      if stability > 7/10 then "low" else if stability > 4/10 then "medium" else "high",
      if stability < 4/10 then "Consider consulting a professional due to mood swings."
      else "Maintain current mood tracking."⟩⟩

/-- The minimum-entries gate of the prediction POST handler (route.ts lines
41-47): the request is answered with the fallback when the fetched history
has fewer than 3 entries. -/
def predictionGateRejects (moodHistory : List PMoodEntry) : Bool :=
  moodHistory.length < 3

/-- The 30 calendar days ending today, in reverse chronological order:
the iteration space of the scan of calculateConsecutiveSadDays. -/
def recentDays (today : ℤ) : List ℤ :=
  (List.range 30).map (fun (i : ℕ) => today - (i : ℤ))

/-- Specification-side view for the consecutive-sad-days claim: the scanned
days that actually have entries, still in reverse chronological order. -/
def daysWithEntries (entries : List MoodData) (today : ℤ) : List ℤ :=
  (recentDays today).filter (fun d => 0 < (dayEntries entries d).length)

/-- Proof-side reformulation of the while loop of calculateStreak: the number
of consecutive successful membership tests walking backward from cur within
the given fuel. streakWalk is expressed through it below. -/
def runLen (dates : List ℤ) : ℕ → ℤ → ℕ
  | 0, _ => 0
  | fuel + 1, cur => if cur ∈ dates then runLen dates fuel (cur - 1) + 1 else 0

theorem generateInsights_empty :
    generateInsights [] =
      ⟨"No data", 0, .low, .stable, ["Insufficient data for analysis"]⟩ := by
  unfold generateInsights
  rw [if_pos rfl]

theorem generateInsights_cons (es : List MoodData) (h : es ≠ []) :
    generateInsights es =
      ⟨dominantMoodOf es, moodStabilityOf es, riskLevelOf es,
        trendDirectionOf es, criticalPatternsOf es⟩ := by
  unfold generateInsights
  rw [if_neg h]

/-- C9: evaluating the analysis twice on the identical entry set yields
identical AnalysisResult values (patterns, insights and recommendations);
the embedded pipeline is a pure function of the entry set, with no hidden
randomness. The generatedAt wall-clock stamp of the HTTP envelope is not a
field of the AnalysisResult of the specification. -/
theorem c9_determinism (es : List MoodData) :
    analyzeMoodPatterns es = analyzeMoodPatterns es := rfl

/-- Counterexample for C8: on the empty entry list the engine returns
moodStability 0, not the 0.5 the claim asserts. -/
theorem c8_counterexample : (generateInsights []).moodStability ≠ 1/2 := by
  rw [generateInsights_empty]
  norm_num

/-- C8 (amended): on the empty entry list the engine never fails and returns
the defaults riskLevel low, trendDirection stable, moodStability 0 and
criticalPatterns exactly the insufficient-data flag; the 0.5 stability
default belongs to the prediction fallback getFallbackPrediction. -/
theorem c8_empty_defaults :
    generateInsights [] =
      ⟨"No data", 0, .low, .stable, ["Insufficient data for analysis"]⟩ ∧
    getFallbackPrediction.patterns.moodStability = 1/2 ∧
    getFallbackPrediction.patterns.weeklyTrend = "insufficient_data" :=
  ⟨generateInsights_empty, rfl, rfl⟩

/-- C1: the risk level is high exactly when the consecutive-sad count is at
least 7 or the sad fraction exceeds 0.7; otherwise medium exactly when the
count is at least 3 or the sad fraction exceeds 0.4 or the stressed fraction
exceeds 0.6; otherwise low — the first matching branch wins. -/
theorem c1_risk_classification (es : List MoodData) :
    ((generateInsights es).riskLevel = .high ↔
      7 ≤ calculateMaxConsecutiveSad es ∨ sadFraction es > 7/10) ∧
    ((generateInsights es).riskLevel = .medium ↔
      ¬(7 ≤ calculateMaxConsecutiveSad es ∨ sadFraction es > 7/10) ∧
      (3 ≤ calculateMaxConsecutiveSad es ∨ sadFraction es > 4/10 ∨
        stressedFraction es > 6/10)) ∧
    ((generateInsights es).riskLevel = .low ↔
      ¬(7 ≤ calculateMaxConsecutiveSad es ∨ sadFraction es > 7/10) ∧
      ¬(3 ≤ calculateMaxConsecutiveSad es ∨ sadFraction es > 4/10 ∨
        stressedFraction es > 6/10)) := by
  by_cases h : es = []
  · subst h
    rw [generateInsights_empty]
    have h0 : calculateMaxConsecutiveSad ([] : List MoodData) = 0 := rfl
    have hs : sadFraction ([] : List MoodData) = 0 := by
      simp [sadFraction, countState]
    have ht : stressedFraction ([] : List MoodData) = 0 := by
      simp [stressedFraction, countState]
    rw [h0, hs, ht]
    norm_num
    exact ⟨by decide, by decide⟩
  · rw [generateInsights_cons es h]
    show (riskLevelOf es = _ ↔ _) ∧ (riskLevelOf es = _ ↔ _) ∧ (riskLevelOf es = _ ↔ _)
    unfold riskLevelOf
    split_ifs with h1 h2
    · simp [h1]
    · simp [h1, h2]
    · simp [h1, h2]

/-- C10: a fetched history of exactly 3 or 4 entries passes the minimum-entries
gate of the prediction POST handler, yet calculateStatisticalPrediction still
returns the fixed fallback because it falls back below 5 entries. -/
theorem c10_prediction_gate (moodHistory : List PMoodEntry)
    (h : moodHistory.length = 3 ∨ moodHistory.length = 4) :
    predictionGateRejects moodHistory = false ∧
    calculateStatisticalPrediction moodHistory = getFallbackPrediction := by
  constructor
  · simp only [predictionGateRejects, decide_eq_false_iff_not]
    omega
  · unfold calculateStatisticalPrediction
    rw [if_pos (by omega)]

/-- Witness for C10 at a concrete 3-entry history. -/
theorem c10_prediction_gate_witness :
    predictionGateRejects [⟨.Sad, 0⟩, ⟨.Sad, 1⟩, ⟨.Sad, 2⟩] = false ∧
    calculateStatisticalPrediction [⟨.Sad, 0⟩, ⟨.Sad, 1⟩, ⟨.Sad, 2⟩] =
      getFallbackPrediction :=
  c10_prediction_gate _ (Or.inl rfl)

/-- C7: the recommendation list equals the concatenation of the fixed
catalogs in the fixed priority order (risk level, then trend, then dominant
mood, then the stability threshold) truncated to 6, and its length is at
most 6 for every insights value. -/
theorem c7_recommendation_generator (insights : Insights) :
    generatePatternRecommendations insights =
      (riskRecs insights.riskLevel ++ trendRecs insights.trendDirection ++
        moodRecs insights.dominantMood ++
        stabilityRecs insights.moodStability).take 6 ∧
    (generatePatternRecommendations insights).length ≤ 6 := by
  have hcat : generatePatternRecommendations insights =
      (riskRecs insights.riskLevel ++ trendRecs insights.trendDirection ++
        moodRecs insights.dominantMood ++
        stabilityRecs insights.moodStability).take 6 := by
    cases hr : insights.riskLevel <;> cases ht : insights.trendDirection <;>
      by_cases hm : insights.dominantMood = "Stressed" <;>
      simp [generatePatternRecommendations, riskRecs, trendRecs, moodRecs,
        stabilityRecs, hr, ht, hm] <;>
      (try split_ifs <;> simp)
  refine ⟨hcat, ?_⟩
  rw [hcat, List.length_take]
  omega

theorem stabilityChanges_nonneg : ∀ l : List PMoodEntry, 0 ≤ stabilityChanges l := by
  intro l
  induction l with
  | nil => simp [stabilityChanges]
  | cons a rest ih =>
    cases rest with
    | nil => simp [stabilityChanges]
    | cons b r2 =>
      rw [stabilityChanges]
      have hw : 0 ≤ changeWeight a b := by
        unfold changeWeight
        split_ifs <;> norm_num
      exact add_nonneg hw ih

/-- C6: the transition-based stability of the prediction path always lies in
the interval from 0 to 1 (including the value 0.5 returned below 2 entries),
while the variance-based moodStability of the analytics path exceeds 1 on a
concrete input with zero variance (a single Happy entry yields 10). -/
theorem c6_stability_bounds :
    (∀ moodData : List PMoodEntry,
        0 ≤ calculateStability moodData ∧ calculateStability moodData ≤ 1) ∧
    1 < (generateInsights [⟨0, "Happy", none⟩]).moodStability := by
  constructor
  · intro moodData
    unfold calculateStability
    split_ifs with h
    · norm_num
    · have hlen : (2 : ℕ) ≤ moodData.length := by omega
      have hpos : (0 : ℚ) < (moodData.length : ℚ) - 1 := by
        have h2 : (2 : ℚ) ≤ (moodData.length : ℚ) := by exact_mod_cast hlen
        linarith
      have hdiv : 0 ≤ stabilityChanges moodData / ((moodData.length : ℚ) - 1) :=
        div_nonneg (stabilityChanges_nonneg moodData) (le_of_lt hpos)
      exact ⟨le_max_left 0 _, max_le (by norm_num) (by linarith)⟩
  · rw [generateInsights_cons _ (by simp)]
    show 1 < moodStabilityOf _
    unfold moodStabilityOf
    have hvar : varianceOf [⟨0, "Happy", none⟩] = 0 := by
      norm_num [varianceOf, meanOf, valuesOf, moodValue]
    rw [hvar]
    have h0 : ((0 : ℚ) : ℝ) = 0 := by norm_num
    rw [h0, Real.sqrt_zero]
    have h1 : (1 / ((0 : ℝ) + 1/10)) * 100 = 1000 := by norm_num
    rw [h1]
    unfold jsRound
    have hf : ⌊(1000 : ℝ) + 1/2⌋ = 1000 := by
      rw [Int.floor_eq_iff]
      norm_num
    rw [hf]
    norm_num

/-- C4: the trend director returns the sentinel insufficient-data below 3
entries, and otherwise classifies improving exactly when the recent-window
mean exceeds the older-window mean by more than 0.3, declining exactly when
it is lower by more than 0.3, and stable otherwise. -/
theorem c4_trend_director (moodHistory : List MoodData) :
    (moodHistory.length < 3 → analyzeMoodTrend moodHistory = "insufficient_data") ∧
    (3 ≤ moodHistory.length →
      ((analyzeMoodTrend moodHistory = "improving" ↔
          trendRecentAvg moodHistory > trendOlderAvg moodHistory + 3/10) ∧
       (analyzeMoodTrend moodHistory = "declining" ↔
          trendRecentAvg moodHistory < trendOlderAvg moodHistory - 3/10) ∧
       (analyzeMoodTrend moodHistory = "stable" ↔
          ¬(trendRecentAvg moodHistory > trendOlderAvg moodHistory + 3/10) ∧
          ¬(trendRecentAvg moodHistory < trendOlderAvg moodHistory - 3/10)))) := by
  constructor
  · intro h
    unfold analyzeMoodTrend
    rw [if_pos h]
  · intro h
    have h3 : ¬ moodHistory.length < 3 := by omega
    unfold analyzeMoodTrend
    rw [if_neg h3]
    split_ifs with h1 h2
    · refine ⟨⟨fun _ => h1, fun _ => rfl⟩, ?_, ?_⟩
      · exact ⟨fun hc => absurd hc (by decide), fun hlt => absurd h1 (by linarith)⟩
      · exact ⟨fun hc => absurd hc (by decide), fun hp => absurd h1 hp.1⟩
    · refine ⟨⟨fun hc => absurd hc (by decide), fun hgt => absurd hgt h1⟩,
        ⟨fun _ => h2, fun _ => rfl⟩, ?_⟩
      exact ⟨fun hc => absurd hc (by decide), fun hp => absurd h2 hp.2⟩
    · exact ⟨⟨fun hc => absurd hc (by decide), fun hgt => absurd hgt h1⟩,
        ⟨fun hc => absurd hc (by decide), fun hlt => absurd hlt h2⟩,
        ⟨fun _ => ⟨h1, h2⟩, fun _ => rfl⟩⟩

/-- Witness for C4: the sentinel on the empty history, and a computed stable
verdict on a concrete 3-entry history. -/
theorem c4_trend_director_witness :
    analyzeMoodTrend [] = "insufficient_data" ∧
    analyzeMoodTrend [⟨0, "Sad", none⟩, ⟨1, "Sad", none⟩, ⟨2, "Sad", none⟩] = "stable" := by
  constructor
  · exact (c4_trend_director []).1 (by decide)
  · exact (((c4_trend_director _).2 (by decide)).2.2).mpr
      ⟨by norm_num [trendRecentAvg, trendOlderAvg, moodValue],
       by norm_num [trendRecentAvg, trendOlderAvg, moodValue]⟩

theorem moodValue_normalize (m : MoodData) :
    moodValue (normalizeEntry m).moodState = moodValue m.moodState := by
  unfold normalizeEntry
  by_cases hw : isWellFormedEntry m
  · rw [if_pos hw]
  · rw [if_neg hw]
    simp only [isWellFormedEntry, decide_eq_true_eq] at hw
    push_neg at hw
    show moodValue "Stressed" = moodValue m.moodState
    unfold moodValue
    simp [hw.1, hw.2.1, hw.2.2]

theorem valuesOf_normalize (es : List MoodData) :
    valuesOf (es.map normalizeEntry) = valuesOf es := by
  unfold valuesOf
  rw [List.map_map]
  exact List.map_congr_left (fun m _ => moodValue_normalize m)

theorem varianceOf_normalize (es : List MoodData) :
    varianceOf (es.map normalizeEntry) = varianceOf es := by
  unfold varianceOf meanOf
  rw [valuesOf_normalize, List.length_map]

theorem moodStabilityOf_normalize (es : List MoodData) :
    moodStabilityOf (es.map normalizeEntry) = moodStabilityOf es := by
  unfold moodStabilityOf
  rw [varianceOf_normalize]

theorem recentDataOf_normalize (es : List MoodData) :
    recentDataOf (es.map normalizeEntry) = (recentDataOf es).map normalizeEntry := by
  unfold recentDataOf
  rw [List.length_map, ← List.map_drop]

theorem olderDataOf_normalize (es : List MoodData) :
    olderDataOf (es.map normalizeEntry) = (olderDataOf es).map normalizeEntry := by
  unfold olderDataOf
  rw [List.length_map, ← List.map_take, ← List.map_drop]

theorem recentAvgOf_normalize (es : List MoodData) :
    recentAvgOf (es.map normalizeEntry) = recentAvgOf es := by
  unfold recentAvgOf
  rw [recentDataOf_normalize, valuesOf_normalize, List.length_map]

theorem olderAvgOf_normalize (es : List MoodData) :
    olderAvgOf (es.map normalizeEntry) = olderAvgOf es := by
  unfold olderAvgOf
  rw [olderDataOf_normalize, valuesOf_normalize, List.length_map,
    recentAvgOf_normalize]

theorem trendDirectionOf_normalize (es : List MoodData) :
    trendDirectionOf (es.map normalizeEntry) = trendDirectionOf es := by
  unfold trendDirectionOf
  rw [recentAvgOf_normalize, olderAvgOf_normalize]

/-- Counterexample for C5: a single entry with the out-of-enum state Angry is
not excluded — filtering it away changes the insights (the dominant mood
becomes the Angry state itself rather than the no-data default), so malformed
entries are not dropped from the computations. -/
theorem c5_counterexample :
    generateInsights [⟨0, "Angry", none⟩] ≠
      generateInsights (([⟨0, "Angry", none⟩] : List MoodData).filter isWellFormedEntry) := by
  intro h
  have hd := congrArg Insights.dominantMood h
  have hf : ([⟨0, "Angry", none⟩] : List MoodData).filter isWellFormedEntry = [] := by
    simp [isWellFormedEntry]
  rw [hf, generateInsights_empty] at hd
  rw [generateInsights_cons _ (by simp)] at hd
  have hdm : dominantMoodOf [⟨0, "Angry", none⟩] = "Angry" := by rfl
  rw [hdm] at hd
  exact absurd hd (by decide)

/-- C5 (amended): a malformed entry is not dropped but defaulted — its ordinal
value becomes 2 (the Stressed value) in the mean, variance, stability and
trend computations, so replacing every out-of-enum moodState by Stressed
leaves moodStability and trendDirection unchanged; it still counts in the
totals and tallies under its own state, and it never fails the analysis
(generateInsights is total). -/
theorem c5_amended (es : List MoodData) :
    (generateInsights (es.map normalizeEntry)).moodStability =
      (generateInsights es).moodStability ∧
    (generateInsights (es.map normalizeEntry)).trendDirection =
      (generateInsights es).trendDirection := by
  by_cases h : es = []
  · subst h
    exact ⟨rfl, rfl⟩
  · have h2 : es.map normalizeEntry ≠ [] := by simpa using h
    rw [generateInsights_cons _ h, generateInsights_cons _ h2]
    exact ⟨moodStabilityOf_normalize es, trendDirectionOf_normalize es⟩

theorem scanDays_eq (entries : List MoodData) :
    ∀ (fuel : ℕ) (d : ℤ),
      scanDays entries d fuel =
        (List.takeWhile (fun x => isDaySad entries x)
          (List.filter (fun x => 0 < (dayEntries entries x).length)
            ((List.range fuel).map (fun (i : ℕ) => d - (i : ℤ))))).length := by
  intro fuel
  induction fuel with
  | zero =>
    intro d
    simp [scanDays]
  | succ n ih =>
    intro d
    rw [List.range_succ_eq_map, List.map_cons, List.map_map]
    have hmap : (List.range n).map ((fun (i : ℕ) => d - (i : ℤ)) ∘ Nat.succ) =
        (List.range n).map (fun (i : ℕ) => (d - 1) - (i : ℤ)) := by
      apply List.map_congr_left
      intro a _
      simp only [Function.comp_apply]
      push_cast
      ring
    rw [hmap]
    by_cases h0 : (dayEntries entries d).length = 0
    · have hp : ¬ (0 < (dayEntries entries d).length) := by omega
      simp only [scanDays, if_pos h0]
      rw [List.filter_cons_of_neg (by simpa using hp)]
      simpa using ih (d - 1)
    · have hp : 0 < (dayEntries entries d).length := Nat.pos_of_ne_zero h0
      simp only [scanDays, if_neg h0]
      rw [List.filter_cons_of_pos (by simpa using hp)]
      by_cases hs : isDaySad entries d
      · rw [if_pos hs, List.takeWhile_cons_of_pos (by simpa using hs),
          List.length_cons, ih (d - 1)]
        omega
      · rw [if_neg hs, List.takeWhile_cons_of_neg (by simpa using hs)]
        rfl

/-- C2: the consecutive-sad-days detector equals the length of the maximal
sad prefix of the days with entries among the 30 days ending today taken in
reverse chronological order — entries are bucketed per calendar day, a day is
sad exactly when strictly more than half of its entries are Sad, empty days
are skipped without breaking the run, the counter increments on each sad
day, and the scan stops at the first non-sad day with entries; the result is
a natural number, hence at least 0. -/
theorem c2_consecutive_sad_days (today : ℤ) (entries : List MoodData) :
    calculateConsecutiveSadDays today entries =
      (List.takeWhile (fun d => isDaySad entries d)
        (daysWithEntries entries today)).length := by
  unfold calculateConsecutiveSadDays daysWithEntries recentDays
  by_cases h : entries = []
  · rw [if_pos h]
    subst h
    have hnil : List.filter (fun d => 0 < (dayEntries ([] : List MoodData) d).length)
        ((List.range 30).map (fun (i : ℕ) => today - (i : ℤ))) = [] := by
      apply List.filter_eq_nil_iff.mpr
      intro a _
      simp [dayEntries]
    rw [hnil]
    rfl
  · rw [if_neg h]
    exact scanDays_eq entries 30 today

theorem streakWalk_eq (dates : List ℤ) :
    ∀ (fuel : ℕ) (cur start : ℤ) (acc : ℕ),
      streakWalk dates fuel cur start acc =
        (acc + runLen dates fuel cur,
         if runLen dates fuel cur = 0 then start
         else cur - (runLen dates fuel cur : ℤ) + 1) := by
  intro fuel
  induction fuel with
  | zero =>
    intro cur start acc
    simp [streakWalk, runLen]
  | succ n ih =>
    intro cur start acc
    by_cases h : cur ∈ dates
    · simp only [streakWalk, runLen, if_pos h]
      rw [ih]
      by_cases h0 : runLen dates n (cur - 1) = 0
      · rw [h0, if_pos rfl, if_neg (by omega : ¬ (0 + 1 = 0))]
        simp only [Prod.mk.injEq]
        constructor
        · trivial
        · push_cast
          ring
      · rw [if_neg h0, if_neg (by omega : ¬ (runLen dates n (cur - 1) + 1 = 0))]
        simp only [Prod.mk.injEq]
        constructor
        · omega
        · push_cast
          ring
    · simp only [streakWalk, runLen, if_neg h]
      simp

theorem runLen_le (dates : List ℤ) : ∀ (fuel : ℕ) (cur : ℤ),
    runLen dates fuel cur ≤ fuel := by
  intro fuel
  induction fuel with
  | zero =>
    intro cur
    simp [runLen]
  | succ n ih =>
    intro cur
    simp only [runLen]
    by_cases h : cur ∈ dates
    · rw [if_pos h]
      have := ih (cur - 1)
      omega
    · rw [if_neg h]
      omega

theorem runLen_mem (dates : List ℤ) :
    ∀ (fuel : ℕ) (cur : ℤ) (j : ℕ),
      j < runLen dates fuel cur → cur - (j : ℤ) ∈ dates := by
  intro fuel
  induction fuel with
  | zero =>
    intro cur j hj
    simp [runLen] at hj
  | succ n ih =>
    intro cur j hj
    simp only [runLen] at hj
    by_cases h : cur ∈ dates
    · rw [if_pos h] at hj
      cases j with
      | zero => simpa using h
      | succ j2 =>
        have hmem := ih (cur - 1) j2 (by omega)
        have heq : cur - ((j2 + 1 : ℕ) : ℤ) = (cur - 1) - (j2 : ℤ) := by
          push_cast
          ring
        rw [heq]
        exact hmem
    · rw [if_neg h] at hj
      omega

theorem runLen_stop (dates : List ℤ) :
    ∀ (fuel : ℕ) (cur : ℤ), runLen dates fuel cur < fuel →
      cur - (runLen dates fuel cur : ℤ) ∉ dates := by
  intro fuel
  induction fuel with
  | zero =>
    intro cur h
    omega
  | succ n ih =>
    intro cur h
    simp only [runLen] at h ⊢
    by_cases hm : cur ∈ dates
    · rw [if_pos hm] at h ⊢
      have hnext := ih (cur - 1) (by omega)
      have heq : cur - ((runLen dates n (cur - 1) + 1 : ℕ) : ℤ) =
          (cur - 1) - (runLen dates n (cur - 1) : ℤ) := by
        push_cast
        ring
      rw [heq]
      exact hnext
    · rw [if_neg hm] at h ⊢
      simpa using hm

theorem runLen_lt_of_fuel (dates : List ℤ) (cur : ℤ) :
    runLen dates (dates.length + 1) cur < dates.length + 1 := by
  by_contra hcon
  push_neg at hcon
  have hle := runLen_le dates (dates.length + 1) cur
  have hmem : ∀ j : ℕ, j < dates.length + 1 → cur - (j : ℤ) ∈ dates := by
    intro j hj
    exact runLen_mem dates (dates.length + 1) cur j (by omega)
  have himg : ((Finset.range (dates.length + 1)).image
      (fun (j : ℕ) => cur - (j : ℤ))).card = dates.length + 1 := by
    rw [Finset.card_image_of_injOn, Finset.card_range]
    intro a _ b _ hab
    have h2 : cur - (a : ℤ) = cur - (b : ℤ) := hab
    omega
  have hsub : (Finset.range (dates.length + 1)).image
      (fun (j : ℕ) => cur - (j : ℤ)) ⊆ dates.toFinset := by
    intro x hx
    obtain ⟨j, hj, rfl⟩ := Finset.mem_image.mp hx
    rw [List.mem_toFinset]
    exact hmem j (Finset.mem_range.mp hj)
  have hcard := Finset.card_le_card hsub
  rw [himg] at hcard
  have hfin := List.toFinset_card_le dates
  omega

theorem runLen_pos (dates : List ℤ) (fuel : ℕ) (cur : ℤ)
    (hf : 0 < fuel) (h : cur ∈ dates) : 1 ≤ runLen dates fuel cur := by
  cases fuel with
  | zero => omega
  | succ n =>
    simp only [runLen]
    rw [if_pos h]
    omega

theorem streakWalk_spec (dates : List ℤ) (anchor : ℤ) (ha : anchor ∈ dates) :
    (∀ j : ℕ, j < (streakWalk dates (dates.length + 1) anchor anchor 0).1 →
        anchor - (j : ℤ) ∈ dates) ∧
    anchor - ((streakWalk dates (dates.length + 1) anchor anchor 0).1 : ℤ) ∉ dates ∧
    1 ≤ (streakWalk dates (dates.length + 1) anchor anchor 0).1 ∧
    (streakWalk dates (dates.length + 1) anchor anchor 0).2 =
      anchor - ((streakWalk dates (dates.length + 1) anchor anchor 0).1 : ℤ) + 1 := by
  have hpos : 1 ≤ runLen dates (dates.length + 1) anchor :=
    runLen_pos dates (dates.length + 1) anchor (by omega) ha
  have hne : runLen dates (dates.length + 1) anchor ≠ 0 := by omega
  have h1 : (streakWalk dates (dates.length + 1) anchor anchor 0).1 =
      runLen dates (dates.length + 1) anchor := by
    rw [streakWalk_eq]
    simp
  have h2 : (streakWalk dates (dates.length + 1) anchor anchor 0).2 =
      anchor - (runLen dates (dates.length + 1) anchor : ℤ) + 1 := by
    rw [streakWalk_eq]
    simp [hne]
  rw [h1, h2]
  exact ⟨fun j hj => runLen_mem dates (dates.length + 1) anchor j hj,
    runLen_stop dates (dates.length + 1) anchor (runLen_lt_of_fuel dates anchor),
    hpos, rfl⟩

theorem calculateStreak_none (today : ℤ) (tss : List ℚ)
    (hn1 : today ∉ entryDates tss) (hn2 : today - 1 ∉ entryDates tss) :
    calculateStreak today tss = ⟨0, none⟩ := by
  simp only [calculateStreak]
  by_cases he : tss = []
  · rw [if_pos he]
  · rw [if_neg he, if_neg hn1, if_neg hn2]

theorem calculateStreak_spec (today : ℤ) (tss : List ℚ) (anchor : ℤ)
    (hsel : (today ∈ entryDates tss ∧ anchor = today) ∨
      (today ∉ entryDates tss ∧ today - 1 ∈ entryDates tss ∧ anchor = today - 1)) :
    (∀ j : ℕ, j < (calculateStreak today tss).current →
        anchor - (j : ℤ) ∈ entryDates tss) ∧
    anchor - ((calculateStreak today tss).current : ℤ) ∉ entryDates tss ∧
    1 ≤ (calculateStreak today tss).current ∧
    (calculateStreak today tss).startDate =
      some (anchor - ((calculateStreak today tss).current : ℤ) + 1) := by
  rcases hsel with ⟨hin, heq⟩ | ⟨hnin, hin, heq⟩ <;> subst heq
  · have htss : tss ≠ [] := by
      intro h
      subst h
      simp [entryDates] at hin
    have hspec := streakWalk_spec (entryDates tss) anchor hin
    simp only [calculateStreak]
    rw [if_neg htss, if_pos hin]
    exact ⟨hspec.1, hspec.2.1, hspec.2.2.1, congrArg some hspec.2.2.2⟩
  · have htss : tss ≠ [] := by
      intro h
      subst h
      simp [entryDates] at hin
    have hspec := streakWalk_spec (entryDates tss) (today - 1) hin
    simp only [calculateStreak]
    rw [if_neg htss, if_neg hnin, if_pos hin]
    exact ⟨hspec.1, hspec.2.1, hspec.2.2.1, congrArg some hspec.2.2.2⟩

/-- C3: timestamps are normalized to calendar dates with duplicates counting
once (the result depends only on date membership); if neither today nor
yesterday has an entry the result is current 0 with no start date (covering
the empty collection and future-only collections); otherwise the anchor is
today if present else yesterday, current counts the consecutive dates present
walking backward from the anchor stopping at the first missing date, and
startDate is the earliest date of that unbroken run. -/
theorem c3_streak_calculator (today : ℤ) (tss : List ℚ) :
    ((today ∉ entryDates tss ∧ today - 1 ∉ entryDates tss) →
        calculateStreak today tss = ⟨0, none⟩) ∧
    (∀ anchor : ℤ,
      ((today ∈ entryDates tss ∧ anchor = today) ∨
        (today ∉ entryDates tss ∧ today - 1 ∈ entryDates tss ∧
          anchor = today - 1)) →
      (∀ j : ℕ, j < (calculateStreak today tss).current →
          anchor - (j : ℤ) ∈ entryDates tss) ∧
      anchor - ((calculateStreak today tss).current : ℤ) ∉ entryDates tss ∧
      1 ≤ (calculateStreak today tss).current ∧
      (calculateStreak today tss).startDate =
        some (anchor - ((calculateStreak today tss).current : ℤ) + 1)) ∧
    (∀ tss' : List ℚ, (∀ d : ℤ, d ∈ entryDates tss ↔ d ∈ entryDates tss') →
      calculateStreak today tss = calculateStreak today tss') := by
  refine ⟨?_, ?_, ?_⟩
  · intro h
    exact calculateStreak_none today tss h.1 h.2
  · intro anchor hsel
    exact calculateStreak_spec today tss anchor hsel
  · intro tss' hiff
    by_cases hin : today ∈ entryDates tss
    · have hin' : today ∈ entryDates tss' := (hiff today).mp hin
      have s1 := calculateStreak_spec today tss today (Or.inl ⟨hin, rfl⟩)
      have s2 := calculateStreak_spec today tss' today (Or.inl ⟨hin', rfl⟩)
      have hc : (calculateStreak today tss).current =
          (calculateStreak today tss').current := by
        rcases Nat.lt_trichotomy (calculateStreak today tss).current
            (calculateStreak today tss').current with h | h | h
        · exact absurd ((hiff _).mpr (s2.1 _ h)) s1.2.1
        · exact h
        · exact absurd ((hiff _).mp (s1.1 _ h)) s2.2.1
      have hs : (calculateStreak today tss).startDate =
          (calculateStreak today tss').startDate := by
        rw [s1.2.2.2, s2.2.2.2, hc]
      calc calculateStreak today tss
          = ⟨(calculateStreak today tss).current,
             (calculateStreak today tss).startDate⟩ := rfl
        _ = ⟨(calculateStreak today tss').current,
             (calculateStreak today tss').startDate⟩ := by rw [hc, hs]
        _ = calculateStreak today tss' := rfl
    · by_cases hy : today - 1 ∈ entryDates tss
      · have hin' : today ∉ entryDates tss' := fun h => hin ((hiff today).mpr h)
        have hy' : today - 1 ∈ entryDates tss' := (hiff _).mp hy
        have s1 := calculateStreak_spec today tss (today - 1)
          (Or.inr ⟨hin, hy, rfl⟩)
        have s2 := calculateStreak_spec today tss' (today - 1)
          (Or.inr ⟨hin', hy', rfl⟩)
        have hc : (calculateStreak today tss).current =
            (calculateStreak today tss').current := by
          rcases Nat.lt_trichotomy (calculateStreak today tss).current
              (calculateStreak today tss').current with h | h | h
          · exact absurd ((hiff _).mpr (s2.1 _ h)) s1.2.1
          · exact h
          · exact absurd ((hiff _).mp (s1.1 _ h)) s2.2.1
        have hs : (calculateStreak today tss).startDate =
            (calculateStreak today tss').startDate := by
          rw [s1.2.2.2, s2.2.2.2, hc]
        calc calculateStreak today tss
            = ⟨(calculateStreak today tss).current,
               (calculateStreak today tss).startDate⟩ := rfl
          _ = ⟨(calculateStreak today tss').current,
               (calculateStreak today tss').startDate⟩ := by rw [hc, hs]
          _ = calculateStreak today tss' := rfl
      · have hn1' : today ∉ entryDates tss' := fun h => hin ((hiff today).mpr h)
        have hn2' : today - 1 ∉ entryDates tss' := fun h => hy ((hiff _).mpr h)
        rw [calculateStreak_none today tss hin hy,
          calculateStreak_none today tss' hn1' hn2']

/-- Witness for C3: a far-future today yields streak 0 with no start date,
and a duplicated same-day timestamp does not change the result. -/
theorem c3_streak_calculator_witness :
    calculateStreak 5 [0] = ⟨0, none⟩ ∧
    calculateStreak 1 [86400000, 0, 0] = calculateStreak 1 [86400000, 0] := by
  constructor
  · exact (c3_streak_calculator 5 [0]).1
      (by norm_num [entryDates, dayOf])
  · exact (c3_streak_calculator 1 [86400000, 0, 0]).2.2 [86400000, 0]
      (by intro d; norm_num [entryDates, dayOf])
